import Mathlib

/-!
Shallow embedding of the scalar-expression evaluation excerpt of VoltDB
(`src/ee/expressions/functionexpression.cpp`) together with the
`SchedulerValidationErrors` accumulator, and proofs of the specification
claims about them.

Conventions of the embedding:
* C++ `NValue` becomes the inductive `NValue`; machine `int64_t` is modelled
  as `Int` (no arithmetic that could overflow occurs in the embedded code).
* Exceptions (`SQLException`, cast exceptions) become the `Except` monad with
  error type `SQLException`.
* Strings are modelled at character level; the C code works on UTF-8 bytes,
  which coincides with characters for the ASCII data the claims exercise.
-/

namespace VoltDB

/-- The value-type tags used by the excerpt (`VALUE_TYPE_*`). Only the tags
the embedded code inspects are carried. -/
inductive ValueType where
  | VALUE_TYPE_BIGINT
  | VALUE_TYPE_VARCHAR
  | VALUE_TYPE_NULL
  deriving DecidableEq, Repr

/-- The SQL value domain of the excerpt: an immutable tagged scalar.
`bigint` stands for the integer family, `varchar` for text, `nullValue`
for SQL NULL. -/
inductive NValue where
  | bigint (v : Int)
  | varchar (s : String)
  | nullValue
  deriving DecidableEq, Repr

/-- Translation of `NValue::getValueType()` for the modelled constructors. -/
def NValue.getValueType : NValue → ValueType
  | NValue.bigint _ => ValueType.VALUE_TYPE_BIGINT
  | NValue.varchar _ => ValueType.VALUE_TYPE_VARCHAR
  | NValue.nullValue => ValueType.VALUE_TYPE_NULL

/-- Translation of `NValue::isNull()`. -/
def NValue.isNull : NValue → Bool
  | NValue.nullValue => true
  | _ => false

/-- The function identities (`ExpressionType` enumerators) the excerpt's
factory recognises, plus a tag for every other enumerator of the (much
larger) C++ enumeration. -/
inductive ExpressionType where
  | EXPRESSION_TYPE_FUNCTION_ABS
  | EXPRESSION_TYPE_FUNCTION_SQL_ERROR
  | EXPRESSION_TYPE_FUNCTION_SUBSTRING_FROM
  | EXPRESSION_TYPE_FUNCTION_SUBSTRING_FROM_FOR
  | otherExpressionType (tag : Nat)
  deriving DecidableEq, Repr

/-- The failures that unwind out of evaluation in the excerpt:
`userRaised` is the `SQLException(msgcode, msgtext)` thrown by the forced
SQL ERROR function, `castFailure` is `throwCastSQLException` / a throwing
cast, and `fatalDispatch` models invoking a `call*` operation with an
identity not registered at that arity family (a fatal programming error
per the spec, never reachable through the factory). -/
inductive SQLException where
  | userRaised (msgcode : String) (msgtext : String)
  | castFailure (src : ValueType) (dst : ValueType)
  | fatalDispatch (e : ExpressionType)
  deriving DecidableEq, Repr

/-- Modelled from the spec: the string constant
`SQLException::nonspecific_error_code_for_error_forced_by_user` — the
"generic default code" of the forced-error function. Its definition lies
outside the excerpt; the claims only compare against this constant by
name, never against a literal. -/
def nonspecific_error_code_for_error_forced_by_user : String := "99999"

/-- Modelled from the spec: the string constant
`SQLException::specific_error_specified_by_user` — the "generic default
message" of the forced-error function. Its definition lies outside the
excerpt; the claims only compare against this constant by name. -/
def specific_error_specified_by_user : String :=
  "Specific error code specified by user invocation of SQL_ERROR"

/-- Models `snprintf(dst, size, "%s", src)`: at most `size - 1` characters
of `src` are copied (the last slot holds the terminating NUL). Character
level model of the byte-level C call; the two coincide on ASCII data,
which is all the claims exercise. For `size = 0` the C call leaves the
buffer untouched (unspecified contents); the model returns `""`, a case no
claim exercises. -/
def snprintfS (size : Nat) (s : String) : String := s.take (size - 1)

/-- Modelled from the spec: `NValue::castAsBigIntAndGetValue()`, whose body
is outside the excerpt. Per the spec's `castTo` contract an integer value
is returned unchanged and a non-numeric source raises a CastFailure; the
NULL case is never reached by the embedded call sites on the inputs the
claims exercise. -/
def NValue.castAsBigIntAndGetValue : NValue → Except SQLException Int
  | NValue.bigint v => Except.ok v
  | NValue.varchar _ =>
      Except.error (SQLException.castFailure ValueType.VALUE_TYPE_VARCHAR ValueType.VALUE_TYPE_BIGINT)
  | NValue.nullValue =>
      Except.error (SQLException.castFailure ValueType.VALUE_TYPE_NULL ValueType.VALUE_TYPE_BIGINT)

/-- Translation of
`NValue::callUnary<EXPRESSION_TYPE_FUNCTION_SQL_ERROR>()`
(functionexpression.cpp lines 120-142). On the VARCHAR branch `intValue`
keeps its initial `-1`; `snprintf(buffer, min(sizeof buffer, valueUTF8Length), "%s", valueChars)`
copies at most `min 1024 length - 1` characters. On the other branch the
operand is cast to a big integer and rendered in decimal (`%ld`). The
trailing `if (intValue != 0) throw ...; return *this;` is common to both. -/
def NValue.callUnarySqlError (v : NValue) : Except SQLException NValue :=
  match v with
  | NValue.varchar s =>
      let intValue : Int := -1
      let msgcode := nonspecific_error_code_for_error_forced_by_user
      let msgtext := snprintfS (min 1024 s.length) s
      if intValue ≠ 0 then Except.error (SQLException.userRaised msgcode msgtext)
      else Except.ok v
  | _ => do
      let intValue ← v.castAsBigIntAndGetValue
      let msgcode := toString intValue
      let msgtext := specific_error_specified_by_user
      if intValue ≠ 0 then Except.error (SQLException.userRaised msgcode msgtext)
      else Except.ok v

/-- The internal invariant asserted at the top of the two-or-more-argument
forced-error implementation: `assert(arguments.size() == 2)`
(functionexpression.cpp line 146). -/
def sqlErrorCallAssert (arguments : List NValue) : Prop := arguments.length = 2

instance (arguments : List NValue) : Decidable (sqlErrorCallAssert arguments) := by
  unfold sqlErrorCallAssert; infer_instance

/-- Translation of
`NValue::call<EXPRESSION_TYPE_FUNCTION_SQL_ERROR>(arguments)`
(functionexpression.cpp lines 145-179). After the (release-mode no-op)
assertion the code reads exactly `arguments[0]` and `arguments[1]`,
ignoring any further elements, hence the pattern. A list shorter than two
elements would index out of bounds in C++ (undefined, unreachable through
the factory); the model totalises that case with `fatalDispatch`. The
message branch mirrors the source order: `isNull` first, then the VARCHAR
type check (`throwCastSQLException`), then the truncating `snprintf`. -/
def NValue.callSqlError (arguments : List NValue) : Except SQLException NValue :=
  match arguments with
  | codeArg :: strValue :: _ => do
      let (intValue, msgcode) ←
        if codeArg.isNull then
          pure ((-1 : Int), nonspecific_error_code_for_error_forced_by_user)
        else do
          let iv ← codeArg.castAsBigIntAndGetValue
          pure (iv, toString iv)
      let msgtext ←
        match strValue with
        | NValue.nullValue => pure ""
        | NValue.varchar s => pure (snprintfS (min 1024 s.length) s)
        | _ =>
            Except.error
              (SQLException.castFailure strValue.getValueType ValueType.VALUE_TYPE_VARCHAR)
      if intValue ≠ 0 then Except.error (SQLException.userRaised msgcode msgtext)
      else Except.ok codeArg
  | _ => Except.error (SQLException.fatalDispatch ExpressionType.EXPRESSION_TYPE_FUNCTION_SQL_ERROR)

/-- Modelled from the spec: the absolute-value unary function registered
for `EXPRESSION_TYPE_FUNCTION_ABS`; its implementation lies outside the
excerpt and no claim depends on its value behaviour, only on the dispatch
reaching it. -/
def NValue.callUnaryAbs (v : NValue) : Except SQLException NValue :=
  match v with
  | NValue.bigint i => Except.ok (NValue.bigint (i.natAbs : Int))
  | NValue.nullValue => Except.ok NValue.nullValue
  | NValue.varchar _ =>
      Except.error (SQLException.castFailure ValueType.VALUE_TYPE_VARCHAR ValueType.VALUE_TYPE_BIGINT)

/-- Modelled from the spec: the substring-with-start function registered
for `EXPRESSION_TYPE_FUNCTION_SUBSTRING_FROM` (implementation outside the
excerpt; SQL substring is 1-based). No claim depends on its value
behaviour, only on the dispatch reaching it. -/
def NValue.callSubstringFrom (arguments : List NValue) : Except SQLException NValue :=
  match arguments with
  | [NValue.varchar s, NValue.bigint start] =>
      Except.ok (NValue.varchar (s.drop (start.toNat - 1)))
  | [NValue.nullValue, _] => Except.ok NValue.nullValue
  | v :: _ =>
      Except.error (SQLException.castFailure v.getValueType ValueType.VALUE_TYPE_VARCHAR)
  | [] => Except.error (SQLException.fatalDispatch ExpressionType.EXPRESSION_TYPE_FUNCTION_SUBSTRING_FROM)

/-- Modelled from the spec: the substring-with-start-and-length function
registered for `EXPRESSION_TYPE_FUNCTION_SUBSTRING_FROM_FOR`
(implementation outside the excerpt). No claim depends on its value
behaviour, only on the dispatch reaching it. -/
def NValue.callSubstringFromFor (arguments : List NValue) : Except SQLException NValue :=
  match arguments with
  | [NValue.varchar s, NValue.bigint start, NValue.bigint len] =>
      Except.ok (NValue.varchar ((s.drop (start.toNat - 1)).take len.toNat))
  | [NValue.nullValue, _, _] => Except.ok NValue.nullValue
  | v :: _ =>
      Except.error (SQLException.castFailure v.getValueType ValueType.VALUE_TYPE_VARCHAR)
  | [] =>
      Except.error (SQLException.fatalDispatch ExpressionType.EXPRESSION_TYPE_FUNCTION_SUBSTRING_FROM_FOR)

/-- Dispatch of `NValue::callConstant<E>()`. No identity of the excerpt is
registered at the zero arity family (the factory's `case 0` is commented
out), so every identity is a fatal dispatch error here, per the spec's
"programming error" rule for unregistered (identity, arity) pairs. -/
def NValue.callConstant (e : ExpressionType) : Except SQLException NValue :=
  Except.error (SQLException.fatalDispatch e)

/-- Dispatch of `v.callUnary<E>()`: the per-identity template
specialisations of the unary arity family. The excerpt specialises
`EXPRESSION_TYPE_FUNCTION_SQL_ERROR` (lines 120-142); absolute value is
registered but implemented outside the excerpt; any other identity is a
fatal dispatch error. -/
def NValue.callUnary (e : ExpressionType) (v : NValue) : Except SQLException NValue :=
  match e with
  | ExpressionType.EXPRESSION_TYPE_FUNCTION_ABS => v.callUnaryAbs
  | ExpressionType.EXPRESSION_TYPE_FUNCTION_SQL_ERROR => v.callUnarySqlError
  | _ => Except.error (SQLException.fatalDispatch e)

/-- Dispatch of `NValue::call<E>(arguments)`: the per-identity template
specialisations of the two-or-more arity family. The excerpt specialises
`EXPRESSION_TYPE_FUNCTION_SQL_ERROR` (lines 145-179); the two substring
identities are registered but implemented outside the excerpt; any other
identity is a fatal dispatch error. -/
def NValue.call (e : ExpressionType) (arguments : List NValue) : Except SQLException NValue :=
  match e with
  | ExpressionType.EXPRESSION_TYPE_FUNCTION_SUBSTRING_FROM => NValue.callSubstringFrom arguments
  | ExpressionType.EXPRESSION_TYPE_FUNCTION_SUBSTRING_FROM_FOR => NValue.callSubstringFromFor arguments
  | ExpressionType.EXPRESSION_TYPE_FUNCTION_SQL_ERROR => NValue.callSqlError arguments
  | _ => Except.error (SQLException.fatalDispatch e)

/-- A row of input values (`TableTuple`). The embedded nodes never inspect
it; it is threaded through evaluation as in the source. -/
structure TableTuple where
  columns : List NValue
  deriving DecidableEq, Repr

/-- The expression tree (`AbstractExpression` and the three
function-calling variants of the excerpt).
`constantFn`, `unaryFn`, `generalFn` translate
`ConstantFunctionExpression<E>`, `UnaryFunctionExpression<E>` and
`GeneralFunctionExpression<E>`. `probe` models an arbitrary already-built
child node (literal, parameter, column reference — kinds outside the
excerpt) by the Value it produces, carrying an observation label so that
"each child is evaluated exactly once, in order" is visible in the
evaluation trace, as the spec's counter-children test harness does. -/
inductive AbstractExpression where
  | constantFn (e : ExpressionType)
  | unaryFn (e : ExpressionType) (child : AbstractExpression)
  | generalFn (e : ExpressionType) (args : List AbstractExpression)
  | probe (label : Nat) (v : NValue)

mutual

/-- Evaluation of a node against a pair of rows, returning the resulting
Value (or unwinding failure) together with the trace of probe labels in
the order the probes were evaluated. Translates the three `eval` bodies:
the constant variant forwards to `callConstant`, the unary variant
evaluates its single child then applies `callUnary`, and the n-ary
variant fills an ordered list with the children's results
(functionexpression.cpp lines 95-101) then applies `call`. A child's
exception aborts the remaining children, as C++ stack unwinding does. -/
def eval : AbstractExpression → TableTuple → TableTuple → Except SQLException NValue × List Nat
  | AbstractExpression.probe label v, _, _ => (Except.ok v, [label])
  | AbstractExpression.constantFn e, _, _ => (NValue.callConstant e, [])
  | AbstractExpression.unaryFn e c, tuple1, tuple2 =>
      match eval c tuple1 tuple2 with
      | (Except.ok v, tr) => (NValue.callUnary e v, tr)
      | (Except.error err, tr) => (Except.error err, tr)
  | AbstractExpression.generalFn e args, tuple1, tuple2 =>
      match evalArgs args tuple1 tuple2 with
      | (Except.ok vs, tr) => (NValue.call e vs, tr)
      | (Except.error err, tr) => (Except.error err, tr)

/-- The n-ary variant's loop `for i: nValue[i] = m_args[i]->eval(t1, t2)`:
children are evaluated left to right, each exactly once, results collected
in order; an exception aborts the loop. -/
def evalArgs : List AbstractExpression → TableTuple → TableTuple → Except SQLException (List NValue) × List Nat
  | [], _, _ => (Except.ok [], [])
  | a :: rest, tuple1, tuple2 =>
      match eval a tuple1 tuple2 with
      | (Except.ok v, tr) =>
          match evalArgs rest tuple1 tuple2 with
          | (Except.ok vs, tr2) => (Except.ok (v :: vs), tr ++ tr2)
          | (Except.error err, tr2) => (Except.error err, tr ++ tr2)
      | (Except.error err, tr) => (Except.error err, tr)

end

/-- Ownership disposition of the argument-list container and of the child
nodes across one `functionFactory` call: transferred into the constructed
node, released (deleted) by the factory itself, or leaked (neither). -/
inductive Disposition where
  | transferred
  | released
  | leaked
  deriving DecidableEq, Repr

/-- Result of one factory call: the produced node (null on construction
failure) plus the ownership disposition of the argument-list container
and of the child nodes it held. -/
structure FactoryOutcome where
  ret : Option AbstractExpression
  container : Disposition
  children : Disposition

/-- Translation of `ExpressionUtil::functionFactory`
(functionexpression.cpp lines 182-211), extended with the ownership
accounting its `new`/`delete` statements perform:
* `case 0`: no identity registered; `delete arguments` releases the
  (empty) container — the children disposition is vacuous, recorded as
  `released`.
* `case 1`: `UnaryFunctionExpression` takes ownership of `(*arguments)[0]`
  (deleted in its destructor) when the identity is ABS or SQL_ERROR;
  `delete arguments` then releases the container in either branch. On
  failure the single child is deleted by nobody: leaked.
* `default` (length ≥ 2): `GeneralFunctionExpression` keeps the container
  reference and deletes the children and the container in its destructor,
  so both are transferred on success; on failure no `delete` runs at all:
  container and children are leaked. -/
def functionFactoryFull (et : ExpressionType) (arguments : List AbstractExpression) :
    FactoryOutcome :=
  match arguments with
  | [] => { ret := none, container := Disposition.released, children := Disposition.released }
  | [child] =>
      if et = ExpressionType.EXPRESSION_TYPE_FUNCTION_ABS then
        { ret := some (AbstractExpression.unaryFn ExpressionType.EXPRESSION_TYPE_FUNCTION_ABS child),
          container := Disposition.released, children := Disposition.transferred }
      else if et = ExpressionType.EXPRESSION_TYPE_FUNCTION_SQL_ERROR then
        { ret := some (AbstractExpression.unaryFn ExpressionType.EXPRESSION_TYPE_FUNCTION_SQL_ERROR child),
          container := Disposition.released, children := Disposition.transferred }
      else
        { ret := none, container := Disposition.released, children := Disposition.leaked }
  | _ =>
      if et = ExpressionType.EXPRESSION_TYPE_FUNCTION_SUBSTRING_FROM then
        { ret := some (AbstractExpression.generalFn ExpressionType.EXPRESSION_TYPE_FUNCTION_SUBSTRING_FROM arguments),
          container := Disposition.transferred, children := Disposition.transferred }
      else if et = ExpressionType.EXPRESSION_TYPE_FUNCTION_SUBSTRING_FROM_FOR then
        { ret := some (AbstractExpression.generalFn ExpressionType.EXPRESSION_TYPE_FUNCTION_SUBSTRING_FROM_FOR arguments),
          container := Disposition.transferred, children := Disposition.transferred }
      else if et = ExpressionType.EXPRESSION_TYPE_FUNCTION_SQL_ERROR then
        { ret := some (AbstractExpression.generalFn ExpressionType.EXPRESSION_TYPE_FUNCTION_SQL_ERROR arguments),
          container := Disposition.transferred, children := Disposition.transferred }
      else
        { ret := none, container := Disposition.leaked, children := Disposition.leaked }

/-- The node produced by `ExpressionUtil::functionFactory` (its return value),
`none` standing for the C++ null pointer on construction failure. -/
def functionFactory (et : ExpressionType) (arguments : List AbstractExpression) :
    Option AbstractExpression :=
  (functionFactoryFull et arguments).ret

/-- The (identity, arity) pairs the factory recognises, read off its
branch conditions: ABS and SQL_ERROR at arity 1; the two substring forms
and SQL_ERROR at arity ≥ 2; nothing at arity 0. -/
def registeredAtArity (et : ExpressionType) (n : Nat) : Bool :=
  if n = 0 then false
  else if n = 1 then
    et = ExpressionType.EXPRESSION_TYPE_FUNCTION_ABS ||
    et = ExpressionType.EXPRESSION_TYPE_FUNCTION_SQL_ERROR
  else
    et = ExpressionType.EXPRESSION_TYPE_FUNCTION_SUBSTRING_FROM ||
    et = ExpressionType.EXPRESSION_TYPE_FUNCTION_SUBSTRING_FROM_FOR ||
    et = ExpressionType.EXPRESSION_TYPE_FUNCTION_SQL_ERROR

/-- State of `SchedulerValidationErrors` (src/unnamed/part_000): the
nullable `m_errors` list. -/
structure SchedulerValidationErrors where
  m_errors : Option (List String)
  deriving DecidableEq, Repr

/-- A freshly constructed `SchedulerValidationErrors` (`m_errors = null`). -/
def SchedulerValidationErrors.empty : SchedulerValidationErrors := { m_errors := none }

/-- Translation of `addErrorMessage`: a null message is ignored; otherwise
the list is created on first use and the message appended. -/
def SchedulerValidationErrors.addErrorMessage
    (s : SchedulerValidationErrors) (error : Option String) : SchedulerValidationErrors :=
  match error with
  | none => s
  | some e =>
      match s.m_errors with
      | none => { m_errors := some [e] }
      | some es => { m_errors := some (es ++ [e]) }

/-- Translation of `hasErrors`: whether `m_errors` is non-null. -/
def SchedulerValidationErrors.hasErrors (s : SchedulerValidationErrors) : Bool :=
  s.m_errors.isSome

/-- Translation of `getErrorMessage`: null when `m_errors` is null,
otherwise the messages joined with a newline (`Joiner.on('\n')`). -/
def SchedulerValidationErrors.getErrorMessage (s : SchedulerValidationErrors) : Option String :=
  match s.m_errors with
  | none => none
  | some es => some (String.intercalate "\n" es)

/-- Folding a whole sequence of `addErrorMessage` calls over a fresh
accumulator, the shape in which the claims quantify over usage
histories. -/
def SchedulerValidationErrors.accumulateAll (msgs : List (Option String)) :
    SchedulerValidationErrors :=
  msgs.foldl SchedulerValidationErrors.addErrorMessage SchedulerValidationErrors.empty

/-- C3: the unary forced-error function on an integer operand of value `c`
returns the operand unchanged without raising when `c = 0`, and raises a
UserRaisedError whose code is the decimal rendering of `c` and whose
message is the generic default message when `c ≠ 0`. -/
theorem C3_unary_forced_error_integer_code (c : Int) :
    NValue.callUnarySqlError (NValue.bigint 0) = Except.ok (NValue.bigint 0) ∧
    (c ≠ 0 →
      NValue.callUnarySqlError (NValue.bigint c) =
        Except.error (SQLException.userRaised (toString c) specific_error_specified_by_user)) := by
  refine ⟨rfl, fun h => ?_⟩
  have step : NValue.callUnarySqlError (NValue.bigint c) =
      if c ≠ 0 then
        Except.error (SQLException.userRaised (toString c) specific_error_specified_by_user)
      else Except.ok (NValue.bigint c) := rfl
  rw [step, if_pos h]

/-- Witness for C3 at the spec's concrete inputs: operand integer 0 is a
no-op, operand integer 5 raises with code "5". -/
theorem C3_unary_forced_error_integer_code_witness :
    NValue.callUnarySqlError (NValue.bigint 0) = Except.ok (NValue.bigint 0) ∧
    NValue.callUnarySqlError (NValue.bigint 5) =
      Except.error (SQLException.userRaised "5" specific_error_specified_by_user) := by
  have h := C3_unary_forced_error_integer_code 5
  have h5 : toString (5 : Int) = "5" := rfl
  exact ⟨h.1, by rw [h.2 (by decide), h5]⟩

/-- C4 (evaluation at the failing input): the unary forced-error function
on the text operand "boom" raises a UserRaisedError with the generic
default code but with message "boo", not "boom" — the
`snprintf(buffer, min(sizeof buffer, valueUTF8Length), ...)` call budgets
one of the `valueUTF8Length` slots for the terminating NUL and so drops
the operand's last character. -/
theorem C4_text_operand_message_truncated :
    NValue.callUnarySqlError (NValue.varchar "boom") =
      Except.error
        (SQLException.userRaised nonspecific_error_code_for_error_forced_by_user "boo") := by
  rfl

/-- C5: the two-argument forced-error function with integer code `c` and
null message raises a UserRaisedError with code the decimal rendering of
`c` and an empty message when `c ≠ 0`, and returns the code argument when
`c = 0`. -/
theorem C5_two_arg_code_null_message (c : Int) :
    (c ≠ 0 →
      NValue.callSqlError [NValue.bigint c, NValue.nullValue] =
        Except.error (SQLException.userRaised (toString c) "")) ∧
    NValue.callSqlError [NValue.bigint 0, NValue.nullValue] = Except.ok (NValue.bigint 0) := by
  refine ⟨fun h => ?_, rfl⟩
  have step : NValue.callSqlError [NValue.bigint c, NValue.nullValue] =
      if c ≠ 0 then Except.error (SQLException.userRaised (toString c) "")
      else Except.ok (NValue.bigint c) := rfl
  rw [step, if_pos h]

/-- Witness for C5 at the spec's concrete input: (7, null) raises with
code "7" and empty message, and (0, null) returns the code argument. -/
theorem C5_two_arg_code_null_message_witness :
    NValue.callSqlError [NValue.bigint 7, NValue.nullValue] =
      Except.error (SQLException.userRaised "7" "") ∧
    NValue.callSqlError [NValue.bigint 0, NValue.nullValue] = Except.ok (NValue.bigint 0) := by
  have h := C5_two_arg_code_null_message 7
  have h7 : toString (7 : Int) = "7" := rfl
  exact ⟨by rw [h.1 (by decide), h7], h.2⟩

/-- C6 (evaluation, including the failing input): the two-argument
forced-error function's message argument resolves to empty text when
null and fails with a CastFailure (no UserRaisedError) when non-null and
not text-typed; but a non-null text message is NOT used whole — the
truncating `snprintf` drops its last character, so `(1, "failure")`
raises with message "failur" rather than "failure". -/
theorem C6_message_argument_handling :
    NValue.callSqlError [NValue.bigint 1, NValue.nullValue] =
      Except.error (SQLException.userRaised "1" "") ∧
    NValue.callSqlError [NValue.bigint 1, NValue.bigint 2] =
      Except.error
        (SQLException.castFailure ValueType.VALUE_TYPE_BIGINT ValueType.VALUE_TYPE_VARCHAR) ∧
    NValue.callSqlError [NValue.bigint 1, NValue.varchar "failure"] =
      Except.error (SQLException.userRaised "1" "failur") := by
  refine ⟨rfl, rfl, rfl⟩

/-- C10: on every text operand the unary forced-error function raises
(the resolved code stays at the non-zero sentinel -1 on that branch), and
the no-op path that returns the operand unchanged is reachable only for a
non-text operand whose integer cast yields zero. -/
theorem C10_text_always_raises (s : String) (v r : NValue) :
    (∃ msg, NValue.callUnarySqlError (NValue.varchar s) =
        Except.error
          (SQLException.userRaised nonspecific_error_code_for_error_forced_by_user msg)) ∧
    (NValue.callUnarySqlError v = Except.ok r →
      v.getValueType ≠ ValueType.VALUE_TYPE_VARCHAR ∧
      v.castAsBigIntAndGetValue = Except.ok 0 ∧ r = v) := by
  constructor
  · exact ⟨snprintfS (min 1024 s.length) s, rfl⟩
  · intro h
    match v with
    | NValue.varchar s' =>
        have step : NValue.callUnarySqlError (NValue.varchar s') =
            Except.error
              (SQLException.userRaised nonspecific_error_code_for_error_forced_by_user
                (snprintfS (min 1024 s'.length) s')) := rfl
        rw [step] at h
        exact absurd h (by simp)
    | NValue.nullValue =>
        have step : NValue.callUnarySqlError NValue.nullValue =
            Except.error
              (SQLException.castFailure ValueType.VALUE_TYPE_NULL ValueType.VALUE_TYPE_BIGINT) := rfl
        rw [step] at h
        exact absurd h (by simp)
    | NValue.bigint c =>
        have step : NValue.callUnarySqlError (NValue.bigint c) =
            if c ≠ 0 then
              Except.error (SQLException.userRaised (toString c) specific_error_specified_by_user)
            else Except.ok (NValue.bigint c) := rfl
        by_cases hc : c = 0
        · subst hc
          rw [step, if_neg (by simp)] at h
          exact ⟨by simp [NValue.getValueType], rfl, (Except.ok.inj h).symm⟩
        · rw [step, if_pos hc] at h
          exact absurd h (by simp)

/-- Witness for C10 at concrete inputs: text "x" raises with the default
code, and the integer-zero operand exercises the no-op path. -/
theorem C10_text_always_raises_witness :
    (∃ msg, NValue.callUnarySqlError (NValue.varchar "x") =
        Except.error
          (SQLException.userRaised nonspecific_error_code_for_error_forced_by_user msg)) ∧
    ((NValue.bigint 0).getValueType ≠ ValueType.VALUE_TYPE_VARCHAR ∧
      (NValue.bigint 0).castAsBigIntAndGetValue = Except.ok 0 ∧
      NValue.bigint 0 = NValue.bigint 0) :=
  ⟨(C10_text_always_raises "x" (NValue.bigint 0) (NValue.bigint 0)).1,
   (C10_text_always_raises "x" (NValue.bigint 0) (NValue.bigint 0)).2 rfl⟩

/-- Helper: folding `addErrorMessage` over further messages from a state
whose list is already created appends exactly the non-null messages, in
order. -/
theorem SchedulerValidationErrors.foldl_add_from_some (msgs : List (Option String)) :
    ∀ es : List String,
      (msgs.foldl SchedulerValidationErrors.addErrorMessage { m_errors := some es }).m_errors =
        some (es ++ msgs.filterMap id) := by
  induction msgs with
  | nil => intro es; simp
  | cons m rest ih =>
      intro es
      match m with
      | none => simpa [SchedulerValidationErrors.addErrorMessage] using ih es
      | some e =>
          simpa [SchedulerValidationErrors.addErrorMessage, List.filterMap_cons] using ih (es ++ [e])

/-- Helper: the `m_errors` field after a whole accumulation history is
null exactly when no non-null message occurred, and otherwise holds the
non-null messages in order. -/
theorem SchedulerValidationErrors.accumulateAll_m_errors (msgs : List (Option String)) :
    (SchedulerValidationErrors.accumulateAll msgs).m_errors =
      if msgs.filterMap id = [] then none else some (msgs.filterMap id) := by
  induction msgs with
  | nil => rfl
  | cons m rest ih =>
      match m with
      | none =>
          simpa [SchedulerValidationErrors.accumulateAll, SchedulerValidationErrors.empty,
            SchedulerValidationErrors.addErrorMessage, List.filterMap_cons] using ih
      | some e =>
          have h1 : SchedulerValidationErrors.accumulateAll (some e :: rest) =
              rest.foldl SchedulerValidationErrors.addErrorMessage { m_errors := some [e] } := rfl
          rw [h1, SchedulerValidationErrors.foldl_add_from_some rest [e]]
          simp [List.filterMap_cons]

/-- C8: the validation-error accumulator ignores null messages; after any
accumulation history, `hasErrors` is true exactly when some non-null
message was accumulated, and `getErrorMessage` is absent when none was
and otherwise joins the accumulated messages, in order, with single
newlines. -/
theorem C8_validation_error_accumulator (msgs : List (Option String)) :
    (∀ s : SchedulerValidationErrors, s.addErrorMessage none = s) ∧
    ((SchedulerValidationErrors.accumulateAll msgs).hasErrors = true ↔
      msgs.filterMap id ≠ []) ∧
    ((SchedulerValidationErrors.accumulateAll msgs).getErrorMessage =
      if msgs.filterMap id = [] then none
      else some (String.intercalate "\n" (msgs.filterMap id))) := by
  refine ⟨fun s => rfl, ?_, ?_⟩
  · rw [SchedulerValidationErrors.hasErrors, SchedulerValidationErrors.accumulateAll_m_errors]
    by_cases hE : msgs.filterMap id = [] <;> simp [hE]
  · rw [SchedulerValidationErrors.getErrorMessage, SchedulerValidationErrors.accumulateAll_m_errors]
    by_cases hE : msgs.filterMap id = [] <;> simp [hE]

/-- Witness for C8 on a concrete history: a null message leaves the fresh
accumulator unchanged, and after accumulating "a", null, "b" the
accumulator has errors and joins to "a\nb". -/
theorem C8_validation_error_accumulator_witness :
    SchedulerValidationErrors.empty.addErrorMessage none = SchedulerValidationErrors.empty ∧
    (SchedulerValidationErrors.accumulateAll [some "a", none, some "b"]).hasErrors = true ∧
    (SchedulerValidationErrors.accumulateAll [some "a", none, some "b"]).getErrorMessage =
      some "a\nb" := by
  have h := C8_validation_error_accumulator [some "a", none, some "b"]
  refine ⟨h.1 SchedulerValidationErrors.empty, h.2.1.mpr (by simp), ?_⟩
  rw [h.2.2]
  rfl

/-- Helper: the n-ary loop evaluates a list of probe children into
exactly the probes' values, in order, with each probe observed exactly
once, in declared order. -/
theorem evalArgs_probes (lvs : List (Nat × NValue)) (tuple1 tuple2 : TableTuple) :
    evalArgs (lvs.map fun p => AbstractExpression.probe p.1 p.2) tuple1 tuple2 =
      (Except.ok (lvs.map Prod.snd), lvs.map Prod.fst) := by
  induction lvs with
  | nil => simp [evalArgs]
  | cons p rest ih => simp [evalArgs, eval, ih]

/-- Helper: when the n-ary loop completes without an exception, the
collected list has exactly one Value per child. -/
theorem evalArgs_ok_length (args : List AbstractExpression) (tuple1 tuple2 : TableTuple) :
    ∀ vs tr, evalArgs args tuple1 tuple2 = (Except.ok vs, tr) → vs.length = args.length := by
  induction args with
  | nil =>
      intro vs tr h
      simp only [evalArgs] at h
      obtain ⟨h1, -⟩ := Prod.mk.injEq .. ▸ h
      simp [← Except.ok.inj (Prod.mk.injEq .. ▸ h).1]
  | cons a rest ih =>
      intro vs tr h
      simp only [evalArgs] at h
      cases h1 : eval a tuple1 tuple2 with
      | mk r1 tr1 =>
          rw [h1] at h
          cases r1 with
          | error err => simp at h
          | ok v =>
              cases h2 : evalArgs rest tuple1 tuple2 with
              | mk r2 tr2 =>
                  rw [h2] at h
                  cases r2 with
                  | error err => simp at h
                  | ok vs2 =>
                      simp only [Prod.mk.injEq, Except.ok.injEq] at h
                      obtain ⟨rfl, -⟩ := h
                      simp [ih vs2 tr2 h2]

/-- C1: every (identity, arity) pair the factory registers — absolute
value and forced error at arity 1, the two substring forms and forced
error at arity ≥ 2 — yields a non-null node of the arity-matching variant
from `construct`, and that node's `eval` forwards to the corresponding
Value operation: `callUnary` on the child's result for the unary variant,
`call` on the ordered child-result list for the n-ary variant. -/
theorem C1_registered_construct_and_dispatch
    (et : ExpressionType) (args : List AbstractExpression)
    (h : registeredAtArity et args.length = true) (tuple1 tuple2 : TableTuple) :
    ∃ node, functionFactory et args = some node ∧
      (∀ c, args = [c] →
        node = AbstractExpression.unaryFn et c ∧
        ∀ v tr, eval c tuple1 tuple2 = (Except.ok v, tr) →
          eval node tuple1 tuple2 = (NValue.callUnary et v, tr)) ∧
      (2 ≤ args.length →
        node = AbstractExpression.generalFn et args ∧
        ∀ vs tr, evalArgs args tuple1 tuple2 = (Except.ok vs, tr) →
          eval node tuple1 tuple2 = (NValue.call et vs, tr)) := by
  match args with
  | [] => simp [registeredAtArity] at h
  | [c] =>
      have hreg : et = ExpressionType.EXPRESSION_TYPE_FUNCTION_ABS ∨
          et = ExpressionType.EXPRESSION_TYPE_FUNCTION_SQL_ERROR := by
        simpa [registeredAtArity] using h
      refine ⟨AbstractExpression.unaryFn et c, ?_, ?_, ?_⟩
      · rcases hreg with h1 | h1 <;> subst h1 <;> rfl
      · intro c' hc'
        obtain rfl : c = c' := by injection hc'
        refine ⟨rfl, fun v tr hev => ?_⟩
        simp only [eval]
        rw [hev]
      · intro h2
        simp at h2
  | a :: b :: rest =>
      have hreg : (et = ExpressionType.EXPRESSION_TYPE_FUNCTION_SUBSTRING_FROM ∨
          et = ExpressionType.EXPRESSION_TYPE_FUNCTION_SUBSTRING_FROM_FOR) ∨
          et = ExpressionType.EXPRESSION_TYPE_FUNCTION_SQL_ERROR := by
        simpa [registeredAtArity] using h
      refine ⟨AbstractExpression.generalFn et (a :: b :: rest), ?_, ?_, ?_⟩
      · rcases hreg with (h1 | h1) | h1 <;> subst h1 <;> rfl
      · intro c' hc'
        simp at hc'
      · intro _
        refine ⟨rfl, fun vs tr hev => ?_⟩
        simp only [eval]
        rw [hev]

/-- Witness for C1 at a concrete registered pair: absolute value at arity
1 over a probe child yields the unary node, whose `eval` forwards the
child's Value to `callUnary`. -/
theorem C1_registered_construct_and_dispatch_witness :
    functionFactory ExpressionType.EXPRESSION_TYPE_FUNCTION_ABS
        [AbstractExpression.probe 0 (NValue.bigint 3)] =
      some (AbstractExpression.unaryFn ExpressionType.EXPRESSION_TYPE_FUNCTION_ABS
        (AbstractExpression.probe 0 (NValue.bigint 3))) ∧
    eval (AbstractExpression.unaryFn ExpressionType.EXPRESSION_TYPE_FUNCTION_ABS
        (AbstractExpression.probe 0 (NValue.bigint 3))) ⟨[]⟩ ⟨[]⟩ =
      (NValue.callUnary ExpressionType.EXPRESSION_TYPE_FUNCTION_ABS (NValue.bigint 3), [0]) := by
  obtain ⟨node, hnode, huna, -⟩ :=
    C1_registered_construct_and_dispatch ExpressionType.EXPRESSION_TYPE_FUNCTION_ABS
      [AbstractExpression.probe 0 (NValue.bigint 3)] rfl ⟨[]⟩ ⟨[]⟩
  obtain ⟨hn, hforward⟩ := huna (AbstractExpression.probe 0 (NValue.bigint 3)) rfl
  subst hn
  exact ⟨hnode, hforward (NValue.bigint 3) [0] (by simp [eval])⟩

/-- C2 (evaluation at the failing inputs): on construction failure the
factory does not fully release the argument list. With an unregistered
identity at arity 1 it deletes the container but leaks the child node; at
arity ≥ 2 (here: absolute value, which is not registered n-ary) it
executes no `delete` at all, leaking both the container and every child.
Construction failure itself (null node) is reported in both cases, as the
claim says. -/
theorem C2_failure_path_leaks :
    (functionFactoryFull (ExpressionType.otherExpressionType 0)
        [AbstractExpression.probe 0 NValue.nullValue]).ret = none ∧
    (functionFactoryFull (ExpressionType.otherExpressionType 0)
        [AbstractExpression.probe 0 NValue.nullValue]).container = Disposition.released ∧
    (functionFactoryFull (ExpressionType.otherExpressionType 0)
        [AbstractExpression.probe 0 NValue.nullValue]).children = Disposition.leaked ∧
    (functionFactoryFull ExpressionType.EXPRESSION_TYPE_FUNCTION_ABS
        [AbstractExpression.probe 0 NValue.nullValue,
         AbstractExpression.probe 1 NValue.nullValue]).ret = none ∧
    (functionFactoryFull ExpressionType.EXPRESSION_TYPE_FUNCTION_ABS
        [AbstractExpression.probe 0 NValue.nullValue,
         AbstractExpression.probe 1 NValue.nullValue]).container = Disposition.leaked ∧
    (functionFactoryFull ExpressionType.EXPRESSION_TYPE_FUNCTION_ABS
        [AbstractExpression.probe 0 NValue.nullValue,
         AbstractExpression.probe 1 NValue.nullValue]).children = Disposition.leaked :=
  ⟨rfl, rfl, rfl, rfl, rfl, rfl⟩

/-- C7: one `eval` call of an n-ary node evaluates every child exactly
once, in declared left-to-right order — the observation trace is exactly
the children's labels in declaration order — and applies `call` to the
freshly collected ordered list of their Values, with no reordering,
skipping or duplication. -/
theorem C7_nary_children_once_in_order (e : ExpressionType)
    (lvs : List (Nat × NValue)) (tuple1 tuple2 : TableTuple) :
    eval (AbstractExpression.generalFn e (lvs.map fun p => AbstractExpression.probe p.1 p.2))
        tuple1 tuple2 =
      (NValue.call e (lvs.map Prod.snd), lvs.map Prod.fst) := by
  simp only [eval]
  rw [evalArgs_probes]

/-- Witness for C7 on a concrete two-child substring node: children
labelled 1 and 2 are each observed once, in order, and `call` receives
their Values in order. -/
theorem C7_nary_children_once_in_order_witness :
    eval (AbstractExpression.generalFn ExpressionType.EXPRESSION_TYPE_FUNCTION_SUBSTRING_FROM
        [AbstractExpression.probe 1 (NValue.varchar "abcd"),
         AbstractExpression.probe 2 (NValue.bigint 2)]) ⟨[]⟩ ⟨[]⟩ =
      (NValue.call ExpressionType.EXPRESSION_TYPE_FUNCTION_SUBSTRING_FROM
        [NValue.varchar "abcd", NValue.bigint 2], [1, 2]) :=
  C7_nary_children_once_in_order ExpressionType.EXPRESSION_TYPE_FUNCTION_SUBSTRING_FROM
    [(1, NValue.varchar "abcd"), (2, NValue.bigint 2)] ⟨[]⟩ ⟨[]⟩

/-- C9: the factory builds an n-ary forced-error node for every child
list of length ≥ 2, in particular ≥ 3, while the two-or-more-argument
forced-error implementation asserts an argument list of length exactly 2;
so for every factory-built forced-error node with three or more children,
the list `eval` hands to the implementation violates that assertion. -/
theorem C9_nary_forced_error_assert_not_valid
    (args : List AbstractExpression) (h : 3 ≤ args.length) (tuple1 tuple2 : TableTuple) :
    functionFactory ExpressionType.EXPRESSION_TYPE_FUNCTION_SQL_ERROR args =
      some (AbstractExpression.generalFn ExpressionType.EXPRESSION_TYPE_FUNCTION_SQL_ERROR args) ∧
    ∀ vs tr, evalArgs args tuple1 tuple2 = (Except.ok vs, tr) → ¬ sqlErrorCallAssert vs := by
  constructor
  · match args, h with
    | a :: b :: c :: rest, _ => rfl
  · intro vs tr hev hass
    have hlen := evalArgs_ok_length args tuple1 tuple2 vs tr hev
    unfold sqlErrorCallAssert at hass
    omega

/-- Witness for C9 on a concrete three-child list: the factory builds the
n-ary forced-error node and the three collected child Values fail the
implementation's size-two assertion. -/
theorem C9_nary_forced_error_assert_not_valid_witness :
    functionFactory ExpressionType.EXPRESSION_TYPE_FUNCTION_SQL_ERROR
        [AbstractExpression.probe 0 NValue.nullValue, AbstractExpression.probe 1 NValue.nullValue,
         AbstractExpression.probe 2 NValue.nullValue] =
      some (AbstractExpression.generalFn ExpressionType.EXPRESSION_TYPE_FUNCTION_SQL_ERROR
        [AbstractExpression.probe 0 NValue.nullValue, AbstractExpression.probe 1 NValue.nullValue,
         AbstractExpression.probe 2 NValue.nullValue]) ∧
    ¬ sqlErrorCallAssert [NValue.nullValue, NValue.nullValue, NValue.nullValue] := by
  have h := C9_nary_forced_error_assert_not_valid
    [AbstractExpression.probe 0 NValue.nullValue, AbstractExpression.probe 1 NValue.nullValue,
     AbstractExpression.probe 2 NValue.nullValue] (by simp) ⟨[]⟩ ⟨[]⟩
  refine ⟨h.1, h.2 [NValue.nullValue, NValue.nullValue, NValue.nullValue] [0, 1, 2] ?_⟩
  simp [evalArgs, eval]

end VoltDB
